import Mathlib

/-!
Shallow embedding of the order-status reconciliation layer of the
mobilecoverBackend repository, covering:

* the Shiprocket webhook handler `handleWebhook`
  (src/unnamed/part_019, the Shiprocket integration controller),
* the shipment-creation path `createShipment` (same file),
* the tracking pull path `trackShipment` (same file),
* the Razorpay payment webhook `razorpayWebhook` and its per-event handlers
  (src/controllers/paymentController.js).

Conventions of the embedding:
* JavaScript strings are Lean `String`s; the JS `a || b` fallback chain
  (where `undefined` and `""` are falsy) is `jsOr` / `jsTruthy`.
* Timestamps (`Date.now()`, `new Date(...)` values) are `Nat` milliseconds.
* Monetary amounts are `Nat` (the `refund.amount / 100` division of the source
  becomes `Nat` division; no claim below depends on fractional amounts).
* Mongo documents are Lean structures; the two collections (`Order`,
  `CustomOrder`) are two lists in a `Db` record, and `order.save()` writes the
  mutated document back into its list by `id`.
* A thrown exception inside a handler's `try` block is injected through an
  explicit `Bool` flag (`saveFails` / `handlerFails`) that routes execution to
  the embedding of the corresponding `catch` block.
-/

/-- JS truthiness of a possibly-absent string: `undefined` and `""` are falsy. -/
def jsTruthy : Option String → Bool
  | some s => s != ""
  | none => false

/-- JS `a || b` for possibly-absent strings (empty string is falsy). -/
def jsOr : Option String → Option String → Option String
  | some s, b => if s = "" then b else some s
  | none, b => b

/-- JS `a || d` for a possibly-absent number (0 is falsy, like `Date` input fallback). -/
def jsOrNat : Option Nat → Nat → Nat
  | some n, d => if n = 0 then d else n
  | none, d => d

/-- JS `a || d` yielding a plain string default (empty string is falsy). -/
def jsOrStrD : Option String → String → String
  | some s, d => if s = "" then d else s
  | none, d => d

/-- Does the character list `s` start with `pat`? (structural, kernel-reducible) -/
def charsStart : List Char → List Char → Bool
  | [], _ => true
  | _ :: _, [] => false
  | a :: as, b :: bs => a == b && charsStart as bs

/-- Does the character list `s` contain `pat` as a contiguous sublist? -/
def charsContain (pat : List Char) : List Char → Bool
  | [] => pat.isEmpty
  | b :: bs => charsStart pat (b :: bs) || charsContain pat bs

/-- JS `s.includes(pat)`. -/
def strContains (s pat : String) : Bool :=
  charsContain pat.data s.data

/-- ASCII lower-casing of one character (JS `toLowerCase` restricted to ASCII,
which is all the provider status vocabulary uses). -/
def lowerChar (c : Char) : Char :=
  if 65 ≤ c.toNat && c.toNat ≤ 90 then Char.ofNat (c.toNat + 32) else c

/-- JS `s.toLowerCase()` on ASCII strings. -/
def lowerStr (s : String) : String :=
  ⟨s.data.map lowerChar⟩

/-- Canonical order status enum stored in `order.status`
(values assigned by the handlers in the source). -/
inductive OrderStatus
  | pending | confirmed | processing | shipped | delivered | cancelled | refunded | failed
deriving DecidableEq, Repr

/-- `order.payment.status` values used by the payment controller. -/
inductive PaymentStatus
  | pending | paid | failed | refunded
deriving DecidableEq, Repr

/-- Body of a Shiprocket webhook request (the fields `handleWebhook` reads). -/
structure SRPayload where
  awb_code : Option String := none
  awb : Option String := none
  order_id : Option String := none
  reference_number : Option String := none
  status : Option String := none
  current_status : Option String := none
  Status : Option String := none
  delivered_date : Option Nat := none
  reason : Option String := none
deriving DecidableEq, Repr

/-- One element of `order.shiprocket.webhookHistory`
(pushed by `handleWebhook`: `{ status, payload, receivedAt }`). -/
structure WebhookHistoryEntry where
  status : Option String
  payload : SRPayload
  receivedAt : Nat
deriving DecidableEq, Repr

/-- The `order.shiprocket` sub-document (fields written by the controller). -/
structure ShiprocketInfo where
  orderId : Option String := none
  shipmentId : Option String := none
  awbCode : Option String := none
  courierId : Option String := none
  courierName : Option String := none
  status : Option String := none
  trackingUrl : Option String := none
  lastSyncedAt : Option Nat := none
  remarks : Option String := none
  deliveredDate : Option Nat := none
  rtoReason : Option String := none
  cancellationReason : Option String := none
  trackingDataStatus : Option String := none
  webhookHistory : List WebhookHistoryEntry := []
deriving DecidableEq, Repr

/-- The `order.payment` sub-document (fields the payment controller touches). -/
structure PaymentInfo where
  razorpayOrderId : Option String := none
  razorpayPaymentId : Option String := none
  razorpaySignature : Option String := none
  status : PaymentStatus := .pending
  paidAt : Option Nat := none
deriving DecidableEq, Repr

/-- `order.shippingAddress` fields read by `createShipment`. -/
structure ShippingAddress where
  address1 : Option String := none
  address2 : Option String := none
  street : Option String := none
  postalCode : Option String := none
deriving DecidableEq, Repr

/-- An order document (regular or custom), restricted to the fields the
reconciliation layer reads or writes. -/
structure Order where
  id : String := ""
  status : OrderStatus := .pending
  payment : PaymentInfo := {}
  shiprocket : Option ShiprocketInfo := none
  shippingAddress : Option ShippingAddress := none
  trackingNumber : Option String := none
  cancellationReason : Option String := none
  notes : Option String := none
  refundAmount : Option Nat := none
  refundStatus : Option String := none
  total : Nat := 0
  price : Nat := 0
deriving DecidableEq, Repr

/-- The two Mongo collections the controllers query. -/
structure Db where
  orders : List Order := []
  customOrders : List Order := []
deriving DecidableEq, Repr

/-- `Order.findById` / `CustomOrder.findById`. -/
def findById (id : String) (l : List Order) : Option Order :=
  l.find? (fun o => o.id == id)

/-- `findOne({'shiprocket.awbCode': awb})`. -/
def findByAwb (awb : String) (l : List Order) : Option Order :=
  l.find? (fun o => (o.shiprocket.bind ShiprocketInfo.awbCode) == some awb)

/-- `order.save()`: write the mutated document back into its collection. -/
def saveOrder (o : Order) (l : List Order) : List Order :=
  l.map (fun x => if x.id == o.id then o else x)

/-- The status-mapping and apply step of the Shiprocket `handleWebhook`
(src/unnamed/part_019 lines 725-758): mirror the raw status into
`order.shiprocket.status`, stamp `lastSyncedAt`, map the lower-cased raw
status onto `order.status` by substring matching (delivered, then
transit/pickup/out-for-delivery, then rto/return, then cancelled), and append
the event to `webhookHistory`. -/
def applyWebhookToOrder (payload : SRPayload) (now : Nat) (o : Order) : Order :=
  let status := jsOr payload.status (jsOr payload.current_status payload.Status)
  let sr0 := o.shiprocket.getD {}
  let sr1 := { sr0 with status := status, lastSyncedAt := some now }
  let statusLower := lowerStr (status.getD "")
  let step :=
    if strContains statusLower "delivered" then
      { o with status := .delivered,
               shiprocket := some { sr1 with
                 deliveredDate := some (jsOrNat payload.delivered_date now) } }
    else if strContains statusLower "transit" || strContains statusLower "pickup"
        || strContains statusLower "out for delivery" then
      { o with status := .shipped, shiprocket := some sr1 }
    else if strContains statusLower "rto" || strContains statusLower "return" then
      { o with shiprocket := some { sr1 with
                 rtoReason := some (jsOrStrD payload.reason "Return to origin") } }
    else if strContains statusLower "cancelled" then
      { o with status := .cancelled,
               cancellationReason := some (jsOrStrD payload.reason "Cancelled by courier"),
               shiprocket := some sr1 }
    else
      { o with shiprocket := some sr1 }
  let sr2 := step.shiprocket.getD {}
  { step with shiprocket := some { sr2 with
      webhookHistory := sr2.webhookHistory ++ [⟨status, payload, now⟩] } }

/-- The webhook token check of `handleWebhook` (lines 670-677): rejection
happens only when a secret is configured and the presented token matches
neither the secret nor `Bearer <secret>`. -/
def authRejected (secret receivedToken : Option String) : Bool :=
  jsTruthy secret && receivedToken != some (secret.getD "")
    && receivedToken != some ("Bearer " ++ secret.getD "")

/-- The test-webhook short-circuit of `handleWebhook` (line 687):
`!awbCode || awbCode === 'test' || orderRef === 'test'`. -/
def isTestWebhook (awbCode orderRef : Option String) : Bool :=
  !jsTruthy awbCode || awbCode == some "test" || orderRef == some "test"

/-- `orderRef.replace(/^(ORD-|CUST-)/, '')`. -/
def stripOrderTag (s : String) : String :=
  if charsStart "CUST-".data s.data then ⟨s.data.drop 5⟩
  else if charsStart "ORD-".data s.data then ⟨s.data.drop 4⟩
  else s

/-- The order-location step of `handleWebhook` (lines 697-715): look up by AWB
in `Order` then `CustomOrder`; otherwise strip the `ORD-`/`CUST-` tag from the
order reference and fetch by id from the collection the tag names. Returns the
located order and whether it came from the custom collection. -/
def locateWebhookOrder (db : Db) (awbCode orderRef : Option String) :
    Option (Order × Bool) :=
  let awb := awbCode.getD ""
  match findByAwb awb db.orders with
  | some o => some (o, false)
  | none =>
    match findByAwb awb db.customOrders with
    | some o => some (o, true)
    | none =>
      if jsTruthy orderRef then
        let ref := orderRef.getD ""
        let isCustomOrder := charsStart "CUST-".data ref.data
        let mongoOrderId := stripOrderTag ref
        if isCustomOrder then
          (findById mongoOrderId db.customOrders).map (fun o => (o, true))
        else
          (findById mongoOrderId db.orders).map (fun o => (o, false))
      else none

/-- An HTTP response, restricted to what the handlers set. -/
structure Resp where
  statusCode : Nat
  success : Bool
  message : String := ""
deriving DecidableEq, Repr

/-- The Shiprocket `handleWebhook` entry point (src/unnamed/part_019 lines
668-783).  `secret` is `process.env.SHIPROCKET_WEBHOOK_SECRET`; `xApiKey` and
`authorization` are the two request headers read; `saveFails` injects a thrown
exception at `order.save()`, which lands in the `catch` block that responds
500. -/
def handleWebhook (secret xApiKey authorization : Option String)
    (payload : SRPayload) (db : Db) (saveFails : Bool) (now : Nat) :
    Resp × Db :=
  let receivedToken := jsOr xApiKey authorization
  if authRejected secret receivedToken then
    (⟨401, false, "Unauthorized"⟩, db)
  else
    let awbCode := jsOr payload.awb_code payload.awb
    let orderRef := jsOr payload.order_id payload.reference_number
    if isTestWebhook awbCode orderRef then
      (⟨200, true, "Test webhook acknowledged"⟩, db)
    else
      match locateWebhookOrder db awbCode orderRef with
      | none => (⟨404, false, "Order not found"⟩, db)
      | some (o, isCustom) =>
        let o' := applyWebhookToOrder payload now o
        if saveFails then
          (⟨500, false, "Internal server error"⟩, db)
        else
          let db' :=
            if isCustom then { db with customOrders := saveOrder o' db.customOrders }
            else { db with orders := saveOrder o' db.orders }
          (⟨200, true, "Webhook processed successfully"⟩, db')




/-- The order-status update performed by `trackShipment` once tracking data has
been fetched for an order located by id (src/unnamed/part_019 lines 472-498):
mirror the raw current status, stamp `lastSyncedAt`, and move `order.status`
to `delivered` or `shipped` when the lower-cased raw status matches — there is
no branch for rto/return or cancelled on this path. -/
def applyTrackingToOrder (raw : String) (now : Nat) (o : Order) : Order :=
  let sr0 := o.shiprocket.getD {}
  let sr1 := { sr0 with trackingDataStatus := some raw, lastSyncedAt := some now }
  let currentStatus := lowerStr raw
  if strContains currentStatus "delivered" then
    { o with status := .delivered, shiprocket := some sr1 }
  else if strContains currentStatus "transit" || strContains currentStatus "pickup"
      || strContains currentStatus "out for delivery" then
    { o with status := .shipped, shiprocket := some sr1 }
  else
    { o with shiprocket := some sr1 }

/-- Is `c` ASCII whitespace (the characters JS `trim` removes that occur here). -/
def isWsChar (c : Char) : Bool :=
  c == ' ' || c == '\t' || c == '\n' || c == '\r'

/-- JS `s.trim()`. -/
def jsTrim (s : String) : String :=
  ⟨((s.data.dropWhile isWsChar).reverse.dropWhile isWsChar).reverse⟩

/-- `[rawAddress1, rawAddress2].filter(a => a.trim()).join(', ').trim()`
(src/unnamed/part_019 line 229). -/
def combineAddress (a1 a2 : String) : String :=
  jsTrim (String.intercalate ", " ([a1, a2].filter (fun a => jsTrim a != "")))

/-- Does the string contain a decimal digit (`/\d/.test`)? -/
def hasDigit (s : String) : Bool :=
  s.data.any (fun c => '0' ≤ c && c ≤ '9')

/-- The Shiprocket address rule (lines 232-234): at least 5 characters, at
least one space, at least one digit. -/
def addressValid (s : String) : Bool :=
  decide (5 ≤ s.length) && strContains s " " && hasDigit s

/-- The best-effort address repair of `createShipment` (lines 247-257): append
a space if missing, then append the postal code — or a literal `" 1"` when no
postal code is available — if a digit is missing. -/
def fixAddress (s : String) (postalCode : Option String) : String :=
  let s := if strContains s " " then s else s ++ " "
  if hasDigit s then s
  else match postalCode with
    | some pc => if pc = "" then s ++ " 1" else s ++ " " ++ pc
    | none => s ++ " 1"

/-- Outcome of `shiprocketService.createOrder` as `createShipment` consumes it
(a thrown provider exception is embedded as `success := false`, since both the
`catch` and the `!success` branch produce the same 400 rejection shape). -/
structure CreateOrderResult where
  success : Bool
  orderId : Option String := none
  shipmentId : Option String := none
  awbCode : Option String := none
  courierId : Option String := none
  courierName : Option String := none
  status : Option String := none
  trackingUrl : Option String := none
  message : Option String := none
deriving DecidableEq, Repr

/-- Response of `createShipment`, with the `data` fields the claims consult. -/
structure CreateShipmentResp where
  statusCode : Nat
  success : Bool
  message : String := ""
  dataShipmentId : Option String := none
  dataAwbCode : Option String := none
deriving DecidableEq, Repr

/-- The per-order part of `createShipment` (src/unnamed/part_019 lines
158-402), entered once the order id has been validated and the order fetched:
reject when a shipment already exists (returning the stored ids in `data`),
validate and best-effort-repair the shipping address, call the provider, and
on success persist the provider identifiers onto `order.shiprocket` and
`order.trackingNumber`. -/
def createShipmentOnOrder (o : Order) (provider : CreateOrderResult) (now : Nat) :
    CreateShipmentResp × Order :=
  let existing := o.shiprocket.getD {}
  if jsTruthy existing.shipmentId || jsTruthy existing.awbCode then
    (⟨400, false, "Shipment already created for this order",
      existing.shipmentId, existing.awbCode⟩, o)
  else
    let addr := o.shippingAddress.getD {}
    let rawAddress1 := (jsOr addr.address1 addr.street).getD ""
    let rawAddress2 := addr.address2.getD ""
    let combined := combineAddress rawAddress1 rawAddress2
    let combined :=
      if addressValid combined then combined else fixAddress combined addr.postalCode
    if !addressValid combined then
      (⟨400, false,
        "Shipping address does not meet Shiprocket requirements. Address must be at least 5 characters and contain at least one number and one space.",
        none, none⟩, o)
    else if !provider.success then
      (⟨400, false,
        jsOrStrD provider.message "Failed to create shipment in Shiprocket",
        none, none⟩, o)
    else
      let o' := { o with
        shiprocket := some {
          orderId := provider.orderId
          shipmentId := provider.shipmentId
          awbCode := provider.awbCode
          courierId := provider.courierId
          courierName := provider.courierName
          status := provider.status
          trackingUrl := provider.trackingUrl
          lastSyncedAt := some now
          remarks := provider.message },
        trackingNumber := provider.awbCode }
      (⟨200, true, "Shipment created successfully in Shiprocket",
        provider.shipmentId, provider.awbCode⟩, o')



/-- A Razorpay payment entity, restricted to the fields the handlers read. -/
structure RzpPayment where
  id : String := ""
  order_id : String := ""
  created_at : Nat := 0
  amount : Nat := 0
  error_description : Option String := none
  error_reason : Option String := none
deriving DecidableEq, Repr

/-- A Razorpay refund entity, restricted to the fields the handlers read. -/
structure RzpRefund where
  id : String := ""
  payment_id : String := ""
  amount : Nat := 0
  failure_reason : Option String := none
deriving DecidableEq, Repr

/-- A handler's `{ success, message }` result object. -/
structure HandlerResult where
  success : Bool
  message : String
deriving DecidableEq, Repr

/-- `findOrderByRazorpayId` (src/controllers/paymentController.js lines 26-36):
regular orders first, then custom orders; the `Bool` records the collection
(`true` = custom). -/
def findOrderByRazorpayId (db : Db) (razorpayOrderId : String) :
    Option (Order × Bool) :=
  match db.orders.find? (fun o => o.payment.razorpayOrderId == some razorpayOrderId) with
  | some o => some (o, false)
  | none =>
    (db.customOrders.find?
      (fun o => o.payment.razorpayOrderId == some razorpayOrderId)).map
      (fun o => (o, true))

/-- `findOne({'payment.razorpayPaymentId': paymentId})` in one collection. -/
def findByRzpPaymentId (paymentId : String) (l : List Order) : Option Order :=
  l.find? (fun o => o.payment.razorpayPaymentId == some paymentId)

/-- Write an order back into the collection the `Bool` names. -/
def saveToDb (db : Db) (o : Order) (isCustom : Bool) : Db :=
  if isCustom then { db with customOrders := saveOrder o db.customOrders }
  else { db with orders := saveOrder o db.orders }

/-- `handlePaymentCaptured` (paymentController.js lines 64-99): locate by the
payment's `order_id`; skip when already `paid`; otherwise record the payment
id, mark `paid`, stamp `paidAt` from the provider's `created_at`, and confirm
the order. -/
def handlePaymentCaptured (payment : RzpPayment) (db : Db) : HandlerResult × Db :=
  match findOrderByRazorpayId db payment.order_id with
  | none => (⟨false, "Order not found"⟩, db)
  | some (o, isCustom) =>
    if o.payment.status = .paid then
      (⟨true, "Already processed"⟩, db)
    else
      let o' := { o with
        payment := { o.payment with
          razorpayPaymentId := some payment.id
          status := .paid
          paidAt := some (payment.created_at * 1000) },
        status := .confirmed }
      (⟨true, "Payment captured successfully"⟩, saveToDb db o' isCustom)

/-- `handlePaymentAuthorized` (lines 105-129): only records the payment id if
none is stored yet. -/
def handlePaymentAuthorized (payment : RzpPayment) (db : Db) : HandlerResult × Db :=
  match findOrderByRazorpayId db payment.order_id with
  | none => (⟨false, "Order not found"⟩, db)
  | some (o, isCustom) =>
    if jsTruthy o.payment.razorpayPaymentId then
      (⟨true, "Payment authorized"⟩, db)
    else
      let o' := { o with
        payment := { o.payment with razorpayPaymentId := some payment.id } }
      (⟨true, "Payment authorized"⟩, saveToDb db o' isCustom)

/-- `handlePaymentFailed` (lines 135-171): never overwrites a successful
payment; otherwise records the failure. -/
def handlePaymentFailed (payment : RzpPayment) (db : Db) : HandlerResult × Db :=
  match findOrderByRazorpayId db payment.order_id with
  | none => (⟨false, "Order not found"⟩, db)
  | some (o, isCustom) =>
    if o.payment.status = .paid then
      (⟨true, "Order already paid, ignoring failure"⟩, db)
    else
      let o' := { o with
        payment := { o.payment with
          razorpayPaymentId := some payment.id
          status := .failed },
        notes := some ("Payment failed: "
          ++ jsOrStrD payment.error_description
              (jsOrStrD payment.error_reason "Unknown error")) }
      (⟨true, "Payment failure recorded"⟩, saveToDb db o' isCustom)

/-- `handleRefundCreated` (lines 178-214): locate by the refund's payment id
(falling back to the accompanying payment entity's id), accumulate the
refunded amount, and mark the refund as processing. -/
def handleRefundCreated (refund : RzpRefund) (payment : Option RzpPayment)
    (db : Db) : HandlerResult × Db :=
  let paymentId := (jsOr (some refund.payment_id) (payment.map RzpPayment.id)).getD ""
  match findByRzpPaymentId paymentId db.orders with
  | some o =>
    let o' := { o with refundAmount := some ((o.refundAmount.getD 0) + refund.amount / 100),
                       refundStatus := some "processing" }
    (⟨true, "Refund recorded"⟩, saveToDb db o' false)
  | none =>
    match findByRzpPaymentId paymentId db.customOrders with
    | some o =>
      let o' := { o with refundAmount := some ((o.refundAmount.getD 0) + refund.amount / 100),
                         refundStatus := some "processing" }
      (⟨true, "Refund recorded"⟩, saveToDb db o' true)
    | none => (⟨false, "Order not found"⟩, db)

/-- `handleRefundProcessed` (lines 220-262): mark the refund completed and,
when the accumulated refund covers the order total, flip `payment.status` to
`refunded`. -/
def handleRefundProcessed (refund : RzpRefund) (db : Db) : HandlerResult × Db :=
  let step : Order → Bool → HandlerResult × Db := fun o isCustom =>
    let totalRefunded := o.refundAmount.getD 0
    let orderTotal := if isCustom then o.price else o.total
    let o' :=
      if orderTotal ≤ totalRefunded then
        { o with refundStatus := some "completed",
                 payment := { o.payment with status := .refunded } }
      else
        { o with refundStatus := some "completed" }
    (⟨true, "Refund completed"⟩, saveToDb db o' isCustom)
  match findByRzpPaymentId refund.payment_id db.orders with
  | some o => step o false
  | none =>
    match findByRzpPaymentId refund.payment_id db.customOrders with
    | some o => step o true
    | none => (⟨false, "Order not found"⟩, db)

/-- `handleRefundFailed` (lines 268-302). -/
def handleRefundFailed (refund : RzpRefund) (db : Db) : HandlerResult × Db :=
  let step : Order → Bool → HandlerResult × Db := fun o isCustom =>
    let o' := { o with refundStatus := some "failed",
                       notes := some ("Refund failed: "
                         ++ jsOrStrD refund.failure_reason "Unknown reason") }
    (⟨true, "Refund failure recorded"⟩, saveToDb db o' isCustom)
  match findByRzpPaymentId refund.payment_id db.orders with
  | some o => step o false
  | none =>
    match findByRzpPaymentId refund.payment_id db.customOrders with
    | some o => step o true
    | none => (⟨false, "Order not found"⟩, db)

/-- `handleOrderPaid` (lines 308-339): locate by the Razorpay order id; skip
when already `paid`; otherwise mark `paid`, stamp `paidAt := new Date()`, and
confirm the order. -/
def handleOrderPaid (razorpayOrderId : String) (now : Nat) (db : Db) :
    HandlerResult × Db :=
  match findOrderByRazorpayId db razorpayOrderId with
  | none => (⟨false, "Order not found"⟩, db)
  | some (o, isCustom) =>
    if o.payment.status = .paid then
      (⟨true, "Already processed"⟩, db)
    else
      let o' := { o with
        payment := { o.payment with status := .paid, paidAt := some now },
        status := .confirmed }
      (⟨true, "Order paid"⟩, saveToDb db o' isCustom)

/-- A parsed Razorpay webhook envelope: the event name and whichever payload
entities are present (`payload.payment.entity`, `payload.refund.entity`,
`payload.order.entity.id`). -/
structure RzpEvent where
  event : String := ""
  paymentEntity : Option RzpPayment := none
  refundEntity : Option RzpRefund := none
  orderEntityId : Option String := none
deriving DecidableEq, Repr

/-- `EVENT_CACHE_TTL = 24 * 60 * 60 * 1000` (paymentController.js line 9). -/
def EVENT_CACHE_TTL : Nat := 24 * 60 * 60 * 1000

/-- One pass of the hourly eviction interval (lines 12-19): drop every ledger
entry with `now - timestamp > EVENT_CACHE_TTL`. -/
def evictExpired (now : Nat) (ledger : List (String × Nat)) : List (String × Nat) :=
  ledger.filter (fun kv => !decide (EVENT_CACHE_TTL < now - kv.2))

/-- The idempotency key of line 371:
`` `${event.event}-${payment?.id || refund?.id || order?.id || Date.now()}` ``. -/
def eventKey (e : RzpEvent) (now : Nat) : String :=
  e.event ++ "-" ++
    (jsOr (e.paymentEntity.map RzpPayment.id)
      (jsOr (e.refundEntity.map RzpRefund.id) e.orderEntityId)).getD (Nat.repr now)

/-- The `switch (event.event)` dispatch (lines 391-426).  `none` encodes the
`TypeError` thrown when the payload entity the case dereferences is absent;
that exception is caught by the surrounding `try` and answered with 200. -/
def dispatchRzpEvent (e : RzpEvent) (now : Nat) (db : Db) :
    Option (HandlerResult × Db) :=
  if e.event == "payment.captured" then
    e.paymentEntity.map (fun p => handlePaymentCaptured p db)
  else if e.event == "payment.authorized" then
    e.paymentEntity.map (fun p => handlePaymentAuthorized p db)
  else if e.event == "payment.failed" then
    e.paymentEntity.map (fun p => handlePaymentFailed p db)
  else if e.event == "refund.created" then
    e.refundEntity.map (fun r => handleRefundCreated r e.paymentEntity db)
  else if e.event == "refund.processed" then
    e.refundEntity.map (fun r => handleRefundProcessed r db)
  else if e.event == "refund.failed" then
    e.refundEntity.map (fun r => handleRefundFailed r db)
  else if e.event == "order.paid" then
    e.orderEntityId.map (fun oid => handleOrderPaid oid now db)
  else
    some (⟨true, "Event " ++ e.event ++ " acknowledged but not processed"⟩, db)

/-- `razorpayWebhook` (paymentController.js lines 345-443).  `secretConfigured`
models whether `RAZORPAY_WEBHOOK_SECRET` is set, `signatureValid` the HMAC
check over the raw body, `parseOk` the `JSON.parse` of the body;
`handlerFails` injects a thrown exception inside event processing, which the
`catch` block answers with HTTP 200 (the ledger entry written before the
throw is kept).  Returns the response, the updated in-memory ledger, and the
updated collections. -/
def razorpayWebhook (secretConfigured signatureValid parseOk : Bool)
    (e : RzpEvent) (ledger : List (String × Nat)) (db : Db) (now : Nat)
    (handlerFails : Bool) : Resp × List (String × Nat) × Db :=
  if !secretConfigured then
    (⟨500, false, "Webhook secret not configured"⟩, ledger, db)
  else if !signatureValid then
    (⟨400, false, "Invalid signature"⟩, ledger, db)
  else if !parseOk then
    (⟨400, false, "Invalid JSON payload"⟩, ledger, db)
  else
    let key := eventKey e now
    if (ledger.lookup key).isSome then
      (⟨200, true, "Event already processed"⟩, ledger, db)
    else
      let ledger' := (key, now) :: ledger
      if handlerFails then
        (⟨200, false, "Error processing webhook, logged for review"⟩, ledger', db)
      else
        match dispatchRzpEvent e now db with
        | none =>
          (⟨200, false, "Error processing webhook, logged for review"⟩, ledger', db)
        | some (r, db') => (⟨200, r.success, r.message⟩, ledger', db')


/-- The raw statuses on which the two apply paths disagree: no
delivered/transit/pickup/out-for-delivery match, no rto/return match, but a
cancellation match (then `handleWebhook` cancels, `trackShipment` does not). -/
def cancelOnlyMatch (raw : String) : Bool :=
  !strContains (lowerStr raw) "delivered"
  && !(strContains (lowerStr raw) "transit" || strContains (lowerStr raw) "pickup"
       || strContains (lowerStr raw) "out for delivery")
  && !(strContains (lowerStr raw) "rto" || strContains (lowerStr raw) "return")
  && strContains (lowerStr raw) "cancelled"

theorem string_data_append (a b : String) : (a ++ b).data = a.data ++ b.data := rfl

/-- A list split at a single occurrence of a separator that occurs in neither
left part is unique. -/
theorem append_single_sep_inj (sep : Char) (xs1 : List Char) :
    ∀ (xs2 ys1 ys2 : List Char), sep ∉ xs1 → sep ∉ xs2 →
      xs1 ++ sep :: ys1 = xs2 ++ sep :: ys2 → xs1 = xs2 ∧ ys1 = ys2 := by
  induction xs1 with
  | nil =>
    intro xs2 ys1 ys2 _ h2 h
    cases xs2 with
    | nil => simpa using h
    | cons b bs =>
      simp only [List.nil_append, List.cons_append, List.cons.injEq] at h
      exact absurd (by rw [h.1]; exact List.mem_cons_self b bs) h2
  | cons a as ih =>
    intro xs2 ys1 ys2 h1 h2 h
    cases xs2 with
    | nil =>
      simp only [List.nil_append, List.cons_append, List.cons.injEq] at h
      exact absurd (by rw [← h.1]; exact List.mem_cons_self a as) h1
    | cons b bs =>
      simp only [List.cons_append, List.cons.injEq] at h
      have h1' : sep ∉ as := fun hm => h1 (List.mem_cons_of_mem a hm)
      have h2' : sep ∉ bs := fun hm => h2 (List.mem_cons_of_mem b hm)
      obtain ⟨hx, hy⟩ := ih bs ys1 ys2 h1' h2' h.2
      exact ⟨by rw [h.1, hx], hy⟩

/-- A key present in an association list has a successful `lookup`. -/
theorem mem_lookup_isSome {k : String} {t : Nat} :
    ∀ l : List (String × Nat), (k, t) ∈ l → (l.lookup k).isSome = true := by
  intro l
  induction l with
  | nil => intro h; cases h
  | cons kv rest ih =>
    intro h
    obtain ⟨a, b⟩ := kv
    rw [List.mem_cons] at h
    by_cases hk : (k == a) = true
    · simp [List.lookup, hk]
    · rcases h with h | h
      · rw [Prod.mk.injEq] at h
        exact absurd (by rw [h.1]; exact beq_self_eq_true a) hk
      · simpa [List.lookup, hk] using ih h

/-- Claim C1: the spec requires that once an order is in a terminal state
(delivered or cancelled) a later webhook never changes `order.status`.  The
code has no such guard: an order already `delivered` that receives an
"In Transit" webhook is moved back to `shipped` (and a `cancelled` order that
receives a "Delivered" webhook is moved to `delivered`), while the event is
still appended to the webhook history.  This theorem evaluates `handleWebhook`
at the failing input. -/
theorem shiprocket_webhook_regresses_from_delivered :
    (handleWebhook none none none
      { awb_code := some "WB100", status := some "In Transit" }
      { orders := [{ id := "o1", status := .delivered,
                     shiprocket := some { awbCode := some "WB100",
                                          deliveredDate := some 100 } }] }
      false 200).1
      = ⟨200, true, "Webhook processed successfully"⟩ ∧
    ((handleWebhook none none none
      { awb_code := some "WB100", status := some "In Transit" }
      { orders := [{ id := "o1", status := .delivered,
                     shiprocket := some { awbCode := some "WB100",
                                          deliveredDate := some 100 } }] }
      false 200).2.orders.head?.map Order.status)
      = some OrderStatus.shipped ∧
    ((handleWebhook none none none
      { awb_code := some "WB100", status := some "In Transit" }
      { orders := [{ id := "o1", status := .delivered,
                     shiprocket := some { awbCode := some "WB100",
                                          deliveredDate := some 100 } }] }
      false 200).2.orders.head?.bind Order.shiprocket).map
        (fun s => s.webhookHistory.length) = some 1 := by
  decide

/-- Claim C2: the spec requires delivering the same webhook payload twice to
have the effect of one delivery (one history entry, one `deliveredDate`
stamp, second call a no-op).  The code has no shipping-webhook idempotency
ledger: the second delivery of the same "Delivered" payload appends a second
history entry and restamps `deliveredDate` (5 → 9 here), and both deliveries
respond success. -/
theorem shiprocket_webhook_duplicate_delivery_double_effect :
    (((handleWebhook none none none
        { awb_code := some "WB100", status := some "Delivered" }
        (handleWebhook none none none
          { awb_code := some "WB100", status := some "Delivered" }
          { orders := [{ id := "o1", status := .shipped,
                         shiprocket := some { awbCode := some "WB100" } }] }
          false 5).2
        false 9).2.orders.head?.bind Order.shiprocket).map
          (fun s => s.webhookHistory.length)) = some 2 ∧
    (((handleWebhook none none none
        { awb_code := some "WB100", status := some "Delivered" }
        { orders := [{ id := "o1", status := .shipped,
                       shiprocket := some { awbCode := some "WB100" } }] }
        false 5).2.orders.head?.bind Order.shiprocket).map
          ShiprocketInfo.deliveredDate) = some (some 5) ∧
    (((handleWebhook none none none
        { awb_code := some "WB100", status := some "Delivered" }
        (handleWebhook none none none
          { awb_code := some "WB100", status := some "Delivered" }
          { orders := [{ id := "o1", status := .shipped,
                         shiprocket := some { awbCode := some "WB100" } }] }
          false 5).2
        false 9).2.orders.head?.bind Order.shiprocket).map
          ShiprocketInfo.deliveredDate) = some (some 9) ∧
    (handleWebhook none none none
        { awb_code := some "WB100", status := some "Delivered" }
        (handleWebhook none none none
          { awb_code := some "WB100", status := some "Delivered" }
          { orders := [{ id := "o1", status := .shipped,
                         shiprocket := some { awbCode := some "WB100" } }] }
          false 5).2
        false 9).1.success = true := by
  decide

/-- Claim C3: the spec requires cancellation patterns to be matched before
transit patterns, so that "cancelled in transit" maps to `cancelled`.  The
code checks the transit/pickup/out-for-delivery patterns before the
cancellation pattern, so the raw status "cancelled in transit" (which
contains both "cancel" and "transit") maps the order to `shipped`, not
`cancelled`. -/
theorem statusMapper_cancelled_in_transit_maps_to_shipped :
    (applyWebhookToOrder { status := some "cancelled in transit" } 0
      { id := "o1" }).status = OrderStatus.shipped ∧
    (applyWebhookToOrder { status := some "cancelled in transit" } 0
      { id := "o1" }).status ≠ OrderStatus.cancelled := by
  decide

/-- Claim C4, counterexample: a second `createShipment` call on an order that
already carries a shipment responds `success: false` (HTTP 400), not the
success response the claim asserts — the existing ids are only echoed in the
rejection's `data`. -/
theorem createShipment_second_call_not_success :
    (createShipmentOnOrder
      { id := "o1",
        shiprocket := some { shipmentId := some "12345", awbCode := some "AWB1" } }
      { success := true, shipmentId := some "99999", awbCode := some "AWB2" }
      0).1.success = false ∧
    (createShipmentOnOrder
      { id := "o1",
        shiprocket := some { shipmentId := some "12345", awbCode := some "AWB1" } }
      { success := true, shipmentId := some "99999", awbCode := some "AWB2" }
      0).1.statusCode = 400 := by
  decide

/-- Claim C4, amended: a second `createShipment` call on an order whose
`shiprocket` sub-document already has a truthy `shipmentId` or `awbCode` is
rejected with HTTP 400 and `success: false`, the response `data` carries the
existing `shipmentId`/`awbCode`, and the stored order — hence its
`providerShipmentId` — is left completely unchanged. -/
theorem createShipment_existing_shipment_rejected_unchanged
    (o : Order) (provider : CreateOrderResult) (now : Nat) (sr : ShiprocketInfo)
    (hsr : o.shiprocket = some sr)
    (h : (jsTruthy sr.shipmentId || jsTruthy sr.awbCode) = true) :
    createShipmentOnOrder o provider now =
      (⟨400, false, "Shipment already created for this order",
        sr.shipmentId, sr.awbCode⟩, o) := by
  simp [createShipmentOnOrder, hsr, h]

/-- Witness for `createShipment_existing_shipment_rejected_unchanged` at a
concrete order that already holds shipment "S1". -/
theorem createShipment_existing_shipment_rejected_unchanged_witness :
    ({ id := "o1", shiprocket := some { shipmentId := some "S1" } } : Order).shiprocket
      = some { shipmentId := some "S1" } ∧
    (jsTruthy (some "S1") || jsTruthy none) = true ∧
    createShipmentOnOrder
      { id := "o1", shiprocket := some { shipmentId := some "S1" } }
      { success := true, shipmentId := some "S2", awbCode := some "W2" } 3 =
      (⟨400, false, "Shipment already created for this order", some "S1", none⟩,
       { id := "o1", shiprocket := some { shipmentId := some "S1" } }) :=
  ⟨rfl, by decide,
    createShipment_existing_shipment_rejected_unchanged _ _ _ _ rfl (by decide)⟩

/-- Claim C5: once an order's `payment.status` is `paid`, no payment webhook
event regresses it: `handlePaymentFailed` is a no-op that still reports
success, and `handlePaymentCaptured` / `handleOrderPaid` are no-ops that do
not reset `paidAt` — all three leave the collections (hence `paidAt`)
completely unchanged. -/
theorem payment_webhooks_noop_when_already_paid
    (db : Db) (p q : RzpPayment) (razorpayOrderId : String) (now : Nat)
    (o : Order) (isCustom : Bool)
    (hfindp : findOrderByRazorpayId db p.order_id = some (o, isCustom))
    (hfindq : findOrderByRazorpayId db q.order_id = some (o, isCustom))
    (hfindo : findOrderByRazorpayId db razorpayOrderId = some (o, isCustom))
    (hpaid : o.payment.status = PaymentStatus.paid) :
    handlePaymentFailed p db = (⟨true, "Order already paid, ignoring failure"⟩, db) ∧
    handlePaymentCaptured q db = (⟨true, "Already processed"⟩, db) ∧
    handleOrderPaid razorpayOrderId now db = (⟨true, "Already processed"⟩, db) := by
  refine ⟨?_, ?_, ?_⟩
  · simp [handlePaymentFailed, hfindp, hpaid]
  · simp [handlePaymentCaptured, hfindq, hpaid]
  · simp [handleOrderPaid, hfindo, hpaid]

/-- Witness for `payment_webhooks_noop_when_already_paid` on a one-order
database whose order is already `paid` with `paidAt = 77`. -/
theorem payment_webhooks_noop_when_already_paid_witness :
    findOrderByRazorpayId
      { orders := [{ id := "o1",
                     payment := { razorpayOrderId := some "rzp1",
                                  status := .paid, paidAt := some 77 } }] }
      ({ id := "pay_9", order_id := "rzp1" } : RzpPayment).order_id
      = some ({ id := "o1",
                payment := { razorpayOrderId := some "rzp1",
                             status := .paid, paidAt := some 77 } }, false) ∧
    ({ id := "o1",
       payment := { razorpayOrderId := some "rzp1",
                    status := .paid, paidAt := some 77 } } : Order).payment.status
      = PaymentStatus.paid ∧
    (handlePaymentFailed { id := "pay_9", order_id := "rzp1" }
        { orders := [{ id := "o1",
                       payment := { razorpayOrderId := some "rzp1",
                                    status := .paid, paidAt := some 77 } }] }
      = (⟨true, "Order already paid, ignoring failure"⟩,
         { orders := [{ id := "o1",
                        payment := { razorpayOrderId := some "rzp1",
                                     status := .paid, paidAt := some 77 } }] }) ∧
     handlePaymentCaptured { id := "pay_9", order_id := "rzp1" }
        { orders := [{ id := "o1",
                       payment := { razorpayOrderId := some "rzp1",
                                    status := .paid, paidAt := some 77 } }] }
      = (⟨true, "Already processed"⟩,
         { orders := [{ id := "o1",
                        payment := { razorpayOrderId := some "rzp1",
                                     status := .paid, paidAt := some 77 } }] }) ∧
     handleOrderPaid "rzp1" 99
        { orders := [{ id := "o1",
                       payment := { razorpayOrderId := some "rzp1",
                                    status := .paid, paidAt := some 77 } }] }
      = (⟨true, "Already processed"⟩,
         { orders := [{ id := "o1",
                        payment := { razorpayOrderId := some "rzp1",
                                     status := .paid, paidAt := some 77 } }] })) :=
  ⟨by decide, by decide,
    payment_webhooks_noop_when_already_paid
      { orders := [{ id := "o1",
                     payment := { razorpayOrderId := some "rzp1",
                                  status := .paid, paidAt := some 77 } }] }
      { id := "pay_9", order_id := "rzp1" } { id := "pay_9", order_id := "rzp1" }
      "rzp1" 99
      { id := "o1",
        payment := { razorpayOrderId := some "rzp1",
                     status := .paid, paidAt := some 77 } } false
      (by decide) (by decide) (by decide) (by decide)⟩

/-- Claim C6, counterexample: an internal error (a throwing `order.save()`)
in the Shiprocket webhook handler, on an authenticated request whose order was
located, is answered with HTTP 500 — not the 2xx the claim asserts for both
handlers. -/
theorem shiprocket_webhook_internal_error_responds_500 :
    (handleWebhook none none none
      { awb_code := some "WB100", status := some "Delivered" }
      { orders := [{ id := "o1", shiprocket := some { awbCode := some "WB100" } }] }
      true 0).1
      = ⟨500, false, "Internal server error"⟩ := by
  decide

/-- Claim C6, amended: on an internal processing error the payment webhook
handler still responds HTTP 200 after logging, but the shipping webhook
handler responds HTTP 500 — only the payment handler implements the
always-2xx policy. -/
theorem webhook_internal_error_response_codes
    (secret xApiKey authHeader : Option String) (payload : SRPayload) (db : Db)
    (now : Nat) (o : Order) (isCustom : Bool)
    (hauth : authRejected secret (jsOr xApiKey authHeader) = false)
    (htest : isTestWebhook (jsOr payload.awb_code payload.awb)
      (jsOr payload.order_id payload.reference_number) = false)
    (hloc : locateWebhookOrder db (jsOr payload.awb_code payload.awb)
      (jsOr payload.order_id payload.reference_number) = some (o, isCustom))
    (e : RzpEvent) (ledger : List (String × Nat)) (pdb : Db) (pnow : Nat)
    (hdup : (ledger.lookup (eventKey e pnow)).isSome = false) :
    (handleWebhook secret xApiKey authHeader payload db true now).1
      = ⟨500, false, "Internal server error"⟩ ∧
    (razorpayWebhook true true true e ledger pdb pnow true).1
      = ⟨200, false, "Error processing webhook, logged for review"⟩ := by
  constructor
  · simp [handleWebhook, hauth, htest, hloc]
  · simp [razorpayWebhook, hdup]

/-- Witness for `webhook_internal_error_response_codes` at concrete requests:
a located Shiprocket order whose save throws, and a fresh Razorpay event whose
processing throws. -/
theorem webhook_internal_error_response_codes_witness :
    authRejected none (jsOr none none) = false ∧
    isTestWebhook
      (jsOr (some "WB100") none) (jsOr none none) = false ∧
    locateWebhookOrder
      { orders := [{ id := "o1", shiprocket := some { awbCode := some "WB100" } }] }
      (jsOr (some "WB100") none) (jsOr none none)
      = some ({ id := "o1", shiprocket := some { awbCode := some "WB100" } }, false) ∧
    (([] : List (String × Nat)).lookup
      (eventKey { event := "payment.captured",
                  paymentEntity := some { id := "pay_1" } } 4)).isSome = false ∧
    ((handleWebhook none none none
        ({ awb_code := some "WB100", status := some "Delivered" } : SRPayload)
        { orders := [{ id := "o1", shiprocket := some { awbCode := some "WB100" } }] }
        true 0).1
      = ⟨500, false, "Internal server error"⟩ ∧
     (razorpayWebhook true true true
        { event := "payment.captured", paymentEntity := some { id := "pay_1" } }
        [] {} 4 true).1
      = ⟨200, false, "Error processing webhook, logged for review"⟩) :=
  ⟨by decide, by decide, by decide, by decide,
    webhook_internal_error_response_codes none none none
      { awb_code := some "WB100", status := some "Delivered" }
      { orders := [{ id := "o1", shiprocket := some { awbCode := some "WB100" } }] }
      0 { id := "o1", shiprocket := some { awbCode := some "WB100" } } false
      (by decide) (by decide) (by decide)
      { event := "payment.captured", paymentEntity := some { id := "pay_1" } }
      [] {} 4 (by decide)⟩

/-- Claim C7, counterexample: the two status-apply paths are separately coded
and diverge.  For the raw provider status "cancelled", `handleWebhook` moves
the order to `cancelled` while `trackShipment` (which has no cancellation
branch) leaves `order.status` untouched. -/
theorem tracking_and_webhook_mapping_diverge_on_cancelled :
    (applyTrackingToOrder "cancelled" 0
      { id := "o1", shiprocket := some {} }).status = OrderStatus.pending ∧
    (applyWebhookToOrder { status := some "cancelled" } 0
      { id := "o1", shiprocket := some {} }).status = OrderStatus.cancelled ∧
    (applyTrackingToOrder "cancelled" 0
      { id := "o1", shiprocket := some {} }).status ≠
      (applyWebhookToOrder { status := some "cancelled" } 0
        { id := "o1", shiprocket := some {} }).status := by
  decide


/-- The status of a payload carrying only a `status` field resolves to that
field's raw string (possibly demoted to absent when empty). -/
theorem resolve_status_only (raw : String) :
    (jsOr (some raw) (jsOr none none)).getD "" = raw := by
  by_cases h0 : raw = "" <;> simp [jsOr, h0]

/-- Claim C7, amended: for every raw provider status outside the
cancellation-only set (`cancelOnlyMatch`), the `order.status` update performed
by `trackShipment`'s apply step equals the one performed by `handleWebhook`'s
apply step; they diverge exactly on the cancellation branch that only the
webhook path implements (and the rto/return branch differs only in the
`rtoReason` annotation, which touches neither path's `order.status`). -/
theorem tracking_and_webhook_mapping_agree_off_cancel
    (raw : String) (now now' : Nat) (o : Order)
    (h : cancelOnlyMatch raw = false) :
    (applyTrackingToOrder raw now o).status =
      (applyWebhookToOrder { status := some raw } now' o).status := by
  by_cases hd : strContains (lowerStr raw) "delivered" = true
  · simp [applyTrackingToOrder, applyWebhookToOrder, resolve_status_only, hd]
  · rw [Bool.not_eq_true] at hd
    by_cases ht : (strContains (lowerStr raw) "transit"
        || strContains (lowerStr raw) "pickup"
        || strContains (lowerStr raw) "out for delivery") = true
    · simp [applyTrackingToOrder, applyWebhookToOrder, resolve_status_only, hd, ht]
    · rw [Bool.not_eq_true] at ht
      by_cases hr : (strContains (lowerStr raw) "rto"
          || strContains (lowerStr raw) "return") = true
      · simp [applyTrackingToOrder, applyWebhookToOrder, resolve_status_only,
          hd, ht, hr]
      · rw [Bool.not_eq_true] at hr
        have hc : strContains (lowerStr raw) "cancelled" = false := by
          unfold cancelOnlyMatch at h
          simpa [hd, ht, hr] using h
        simp [applyTrackingToOrder, applyWebhookToOrder, resolve_status_only,
          hd, ht, hr, hc]

/-- Witness for `tracking_and_webhook_mapping_agree_off_cancel` at the raw
status "In Transit" (both paths map it to `shipped`). -/
theorem tracking_and_webhook_mapping_agree_off_cancel_witness :
    cancelOnlyMatch "In Transit" = false ∧
    (applyTrackingToOrder "In Transit" 3 { id := "o1" }).status =
      (applyWebhookToOrder { status := some "In Transit" } 8 { id := "o1" }).status :=
  ⟨by decide,
    tracking_and_webhook_mapping_agree_off_cancel "In Transit" 3 8
      { id := "o1" } (by decide)⟩

/-- Claim C8, counterexample: `eventKey` is plain string concatenation
`event + "-" + entityId`, so two different logical events can share a key:
the event type "a-b" with payment entity "c" and the event type "a" with
payment entity "b-c" both produce the key "a-b-c". -/
theorem eventKey_not_injective_hyphen_collision :
    ({ event := "a-b", paymentEntity := some { id := "c" } } : RzpEvent) ≠
      ({ event := "a", paymentEntity := some { id := "b-c" } } : RzpEvent) ∧
    eventKey { event := "a-b", paymentEntity := some { id := "c" } } 0 =
      eventKey { event := "a", paymentEntity := some { id := "b-c" } } 0 := by
  decide

/-- Claim C8, amended: for webhook events that carry a (non-empty) provider
entity id, the event key is `eventType ++ "-" ++ entityId`: it is independent
of the time of receipt, hence stable across retries of the same logical
event; and for events whose event types contain no hyphen (true of every real
Razorpay event type), equal keys force equal event types and equal entity
ids, so different events get distinct keys.  (Events with no entity id at all
fall back to a timestamp-based key, outside this statement.) -/
theorem eventKey_stable_and_injective_on_hyphen_free_types
    (t1 i1 t2 i2 : String) (n1 n2 m1 m2 : Nat)
    (hi1 : i1 ≠ "") (hi2 : i2 ≠ "")
    (ht1 : '-' ∉ t1.data) (ht2 : '-' ∉ t2.data) :
    eventKey { event := t1, paymentEntity := some { id := i1 } } n1 =
      eventKey { event := t1, paymentEntity := some { id := i1 } } n2 ∧
    (eventKey { event := t1, paymentEntity := some { id := i1 } } m1 =
      eventKey { event := t2, paymentEntity := some { id := i2 } } m2 →
      t1 = t2 ∧ i1 = i2) := by
  have hkey : ∀ (t i : String) (n : Nat), i ≠ "" →
      eventKey { event := t, paymentEntity := some { id := i } } n = t ++ "-" ++ i := by
    intro t i n hi
    simp [eventKey, jsOr, hi]
  refine ⟨by rw [hkey t1 i1 n1 hi1, hkey t1 i1 n2 hi1], fun h => ?_⟩
  rw [hkey t1 i1 m1 hi1, hkey t2 i2 m2 hi2] at h
  have hdata : t1.data ++ '-' :: i1.data = t2.data ++ '-' :: i2.data := by
    have h' := congrArg String.data h
    simpa [string_data_append, List.append_assoc] using h'
  obtain ⟨hx, hy⟩ := append_single_sep_inj '-' t1.data t2.data i1.data i2.data ht1 ht2 hdata
  refine ⟨?_, ?_⟩
  · cases t1; cases t2; exact congrArg String.mk (by simpa using hx)
  · cases i1; cases i2; exact congrArg String.mk (by simpa using hy)

/-- Witness for `eventKey_stable_and_injective_on_hyphen_free_types` at the
real event type "payment.captured" and entity id "pay_ABC". -/
theorem eventKey_stable_and_injective_witness :
    ("pay_ABC" : String) ≠ "" ∧ ("pay_XYZ" : String) ≠ "" ∧
    '-' ∉ ("payment.captured" : String).data ∧
    '-' ∉ ("payment.failed" : String).data ∧
    (eventKey { event := "payment.captured", paymentEntity := some { id := "pay_ABC" } } 1 =
      eventKey { event := "payment.captured", paymentEntity := some { id := "pay_ABC" } } 2 ∧
     (eventKey { event := "payment.captured", paymentEntity := some { id := "pay_ABC" } } 3 =
       eventKey { event := "payment.failed", paymentEntity := some { id := "pay_XYZ" } } 4 →
       ("payment.captured" : String) = "payment.failed" ∧
       ("pay_ABC" : String) = "pay_XYZ")) :=
  ⟨by decide, by decide, by decide, by decide,
    eventKey_stable_and_injective_on_hyphen_free_types
      "payment.captured" "pay_ABC" "payment.failed" "pay_XYZ" 1 2 3 4
      (by decide) (by decide) (by decide) (by decide)⟩

/-- Claim C9: a payment webhook event whose key is already recorded in the
idempotency ledger within the TTL window — so that it survives any eviction
pass — is answered immediately with success (HTTP 200, "Event already
processed") and mutates neither the ledger nor any order collection. -/
theorem razorpayWebhook_duplicate_event_noop_success
    (e : RzpEvent) (ledger : List (String × Nat)) (db : Db) (now t : Nat)
    (handlerFails : Bool)
    (hmem : (eventKey e now, t) ∈ ledger)
    (httl : now - t ≤ EVENT_CACHE_TTL) :
    razorpayWebhook true true true e (evictExpired now ledger) db now handlerFails
      = (⟨200, true, "Event already processed"⟩, evictExpired now ledger, db) := by
  have hmem' : (eventKey e now, t) ∈ evictExpired now ledger := by
    simp only [evictExpired, List.mem_filter]
    exact ⟨hmem, by simp; omega⟩
  have hlk := mem_lookup_isSome _ hmem'
  simp [razorpayWebhook, hlk]

/-- Witness for `razorpayWebhook_duplicate_event_noop_success`: the key
"payment.captured-pay_1" was recorded at time 3 and the same event is
redelivered at time 10, with one pending order in the database. -/
theorem razorpayWebhook_duplicate_event_noop_success_witness :
    (eventKey { event := "payment.captured",
                paymentEntity := some { id := "pay_1", order_id := "rzp_1" } } 10, 3)
      ∈ [("payment.captured-pay_1", 3)] ∧
    10 - 3 ≤ EVENT_CACHE_TTL ∧
    razorpayWebhook true true true
      { event := "payment.captured",
        paymentEntity := some { id := "pay_1", order_id := "rzp_1" } }
      (evictExpired 10 [("payment.captured-pay_1", 3)])
      { orders := [{ id := "o1", payment := { razorpayOrderId := some "rzp_1" } }] }
      10 false
      = (⟨200, true, "Event already processed"⟩,
         evictExpired 10 [("payment.captured-pay_1", 3)],
         { orders := [{ id := "o1", payment := { razorpayOrderId := some "rzp_1" } }] }) :=
  ⟨by decide, by decide,
    razorpayWebhook_duplicate_event_noop_success
      { event := "payment.captured",
        paymentEntity := some { id := "pay_1", order_id := "rzp_1" } }
      [("payment.captured-pay_1", 3)]
      { orders := [{ id := "o1", payment := { razorpayOrderId := some "rzp_1" } }] }
      10 3 false (by decide) (by decide)⟩

/-- Claim C10: the Shiprocket webhook's token check is gated on the secret
being configured.  (i) With `SHIPROCKET_WEBHOOK_SECRET` unset, any request —
whatever its `x-api-key`/`authorization` headers — is accepted and, for a
non-test payload whose order is located, proceeds to mutate the stored order
(apply the webhook and save) and responds 200.  (ii) A 401 can only arise
when `authRejected` holds, i.e. when the secret is configured (truthy) and
the presented token equals neither the secret nor its `Bearer` form. -/
theorem shiprocket_webhook_auth_only_when_secret_configured
    (xApiKey authHeader : Option String) (payload : SRPayload) (db : Db)
    (now : Nat) (o : Order) (isCustom : Bool)
    (htest : isTestWebhook (jsOr payload.awb_code payload.awb)
      (jsOr payload.order_id payload.reference_number) = false)
    (hloc : locateWebhookOrder db (jsOr payload.awb_code payload.awb)
      (jsOr payload.order_id payload.reference_number) = some (o, isCustom)) :
    handleWebhook none xApiKey authHeader payload db false now
      = (⟨200, true, "Webhook processed successfully"⟩,
         saveToDb db (applyWebhookToOrder payload now o) isCustom) ∧
    (∀ (secret xk au : Option String) (pl : SRPayload) (db' : Db) (sf : Bool)
       (n : Nat),
      (handleWebhook secret xk au pl db' sf n).1.statusCode = 401 →
      authRejected secret (jsOr xk au) = true) := by
  constructor
  · have hauth : authRejected none (jsOr xApiKey authHeader) = false := by
      simp [authRejected, jsTruthy]
    simp [handleWebhook, hauth, htest, hloc, saveToDb]
  · intro secret xk au pl db' sf n h
    by_cases ha : authRejected secret (jsOr xk au) = true
    · exact ha
    · exfalso
      have ha' : authRejected secret (jsOr xk au) = false := by
        cases hb : authRejected secret (jsOr xk au)
        · rfl
        · exact absurd hb ha
      cases htw : isTestWebhook (jsOr pl.awb_code pl.awb)
          (jsOr pl.order_id pl.reference_number) with
      | true => simp [handleWebhook, ha', htw] at h
      | false =>
        cases hl : locateWebhookOrder db' (jsOr pl.awb_code pl.awb)
            (jsOr pl.order_id pl.reference_number) with
        | none => simp [handleWebhook, ha', htw, hl] at h
        | some ob =>
          obtain ⟨oo, bb⟩ := ob
          cases sf with
          | true => simp [handleWebhook, ha', htw, hl] at h
          | false => simp [handleWebhook, ha', htw, hl] at h

/-- Witness for `shiprocket_webhook_auth_only_when_secret_configured`: with no
secret configured, a request carrying a random token for a located order is
processed and saved. -/
theorem shiprocket_webhook_auth_only_when_secret_configured_witness :
    isTestWebhook
      (jsOr (some "WB100") none) (jsOr none none) = false ∧
    locateWebhookOrder
      { orders := [{ id := "o1", shiprocket := some { awbCode := some "WB100" } }] }
      (jsOr (some "WB100") none) (jsOr none none)
      = some ({ id := "o1", shiprocket := some { awbCode := some "WB100" } }, false) ∧
    (handleWebhook none (some "wrong-token") none
        ({ awb_code := some "WB100", status := some "Delivered" } : SRPayload)
        { orders := [{ id := "o1", shiprocket := some { awbCode := some "WB100" } }] }
        false 6
      = (⟨200, true, "Webhook processed successfully"⟩,
         saveToDb
           { orders := [{ id := "o1", shiprocket := some { awbCode := some "WB100" } }] }
           (applyWebhookToOrder
             { awb_code := some "WB100", status := some "Delivered" } 6
             { id := "o1", shiprocket := some { awbCode := some "WB100" } })
           false) ∧
     (∀ (secret xk au : Option String) (pl : SRPayload) (db' : Db) (sf : Bool)
        (n : Nat),
       (handleWebhook secret xk au pl db' sf n).1.statusCode = 401 →
       authRejected secret (jsOr xk au) = true)) :=
  ⟨by decide, by decide,
    shiprocket_webhook_auth_only_when_secret_configured
      (some "wrong-token") none
      { awb_code := some "WB100", status := some "Delivered" }
      { orders := [{ id := "o1", shiprocket := some { awbCode := some "WB100" } }] }
      6 { id := "o1", shiprocket := some { awbCode := some "WB100" } } false
      (by decide) (by decide)⟩
